import Mathlib

set_option maxHeartbeats 1000000

/-!
Shallow embedding of the account-registration validation engine and of two
request handlers of this edx-platform excerpt.

The registration validator itself (the body of `student.views.create_account`)
is not among the source files; only its test suite,
`common/djangoapps/student/tests/test_create_account.py`, is.  The validator
and the post-validation registration flow are therefore modelled from the
specification (spec.md, sections 3 to 5); every such definition carries a doc
comment starting with `Modelled from the spec:`.  The learner-profile view and
the branding API are embedded directly from their sources,
`lms/djangoapps/student_profile/views.py` and `lms/djangoapps/branding/api.py`.
-/

/-- A submitted registration form: an association list from field name to raw
string value.  Absence of a key is distinct from presence with the empty
string (spec 3). -/
abbrev Submission := List (String × String)

/-- Requirement level of a configurable extra field (spec 3). -/
inductive Req
  | hidden
  | optional
  | required
deriving DecidableEq, Repr

/-- Per-deployment field-requirement configuration (spec 3), an association
list from extra-field name to requirement level. -/
abbrev Requirements := List (String × Req)

/-- Look up a submitted field; `none` means the key was absent. -/
def getField (s : Submission) (k : String) : Option String :=
  s.lookup k

/-- Add or override one submitted field. -/
def setField (s : Submission) (k v : String) : Submission :=
  (k, v) :: s

/-- Modelled from the spec: requirement lookup with the deployment default.
Per spec 4.1 item 5, `honor_code` is checked when the requirements "(or a
deployment default)" mark it required, so an unconfigured `honor_code`
defaults to `required`; any other unconfigured field defaults to
`optional`. -/
def reqOf (r : Requirements) (k : String) : Req :=
  match r.lookup k with
  | some q => q
  | none => if k = "honor_code" then Req.required else Req.optional

/-- A single reported validation error: offending field, message, and the
rejected raw value (empty when the field was absent) (spec 3). -/
structure FieldError where
  field : String
  message : String
  value : String
deriving DecidableEq, Repr

/-- Result of one validation pass (spec 3): success, or exactly one
field-message-value triple. -/
inductive ValidationResult
  | success
  | failure (field message value : String)
deriving DecidableEq, Repr

/-- Error message for a missing or too-short username (spec 4.1 item 1). -/
def userMinMsg : String := "Username must be minimum of two characters long"

/-- Error message for a username longer than 30 characters (spec 4.1 item 1). -/
def userMaxMsg : String := "Username cannot be more than 30 characters long"

/-- Error message for a username with characters outside the permitted
alphanumeric range (spec 4.1 item 1). -/
def userCharsMsg : String := "Username should only consist of A-Z and 0-9, with no spaces."

/-- Error message for a missing, empty or malformed email (spec 4.1 item 2). -/
def emailFmtMsg : String := "A properly formatted e-mail is required"

/-- Error message for an email longer than 75 characters (spec 4.1 item 2). -/
def emailLenMsg : String := "Email cannot be more than 75 characters long"

/-- Error message for a missing or too-short password (spec 4.1 item 3). -/
def passwordReqMsg : String := "A valid password is required"

/-- Error message when the password equals the username (spec 4.1 item 3). -/
def passwordMatchMsg : String := "Username and password fields cannot match"

/-- Error message for a missing or too-short name (spec 4.1 item 4). -/
def nameMsg : String := "Your legal name must be a minimum of two characters long"

/-- Error message for a missing or unaccepted honor code (spec 4.1 item 5). -/
def honorMsg : String := "To enroll, you must follow the honor code."

/-- Error message for missing or unaccepted terms of service (spec 4.1 item 6). -/
def tosMsg : String := "You must accept the terms of service."

/-- Generic error message for a missing custom required field (spec 4.1
item 7). -/
def missingFieldsMsg : String := "You are missing one or more required fields"

/-- First `some` in a list of optional errors; `none` when every entry is
`none`.  Implements the short-circuit, single-error-per-pass contract
(spec 3 and 9). -/
def firstSome {α : Type} : List (Option α) → Option α
  | [] => none
  | some a :: _ => some a
  | none :: rest => firstSome rest

/-- Modelled from the spec: whitespace trimming applied before the
minimum-length checks of the extra fields ("after trimming", spec 4.1
item 7). -/
def stripStr (v : String) : String :=
  String.mk (((v.data.dropWhile Char.isWhitespace).reverse.dropWhile Char.isWhitespace).reverse)

/-- Modelled from the spec: ASCII lowercasing used for the case-insensitive
comparison with "true" (spec 4.1 items 5 and 6). -/
def lowerStr (v : String) : String :=
  String.mk (v.data.map Char.toLower)

/-- Modelled from the spec: the case-insensitive acceptance test for
`honor_code` and `terms_of_service`; the accepted set is exactly
case-insensitive "true" (spec 4.1 items 5 and 6). -/
def isTrueStr (v : String) : Bool :=
  lowerStr v == "true"

/-- Modelled from the spec: the "standard e-mail-address syntax check" of
spec 4.1 item 2, whose implementation is not among the source files.  A basic
structural check: a nonempty space-free local part, a single at-sign, and a
nonempty space-free domain containing an inner dot. -/
def isValidEmail (e : String) : Bool :=
  let lpart := e.data.takeWhile (fun c => c != '@')
  match e.data.dropWhile (fun c => c != '@') with
  | [] => false
  | _ :: dpart =>
    !lpart.isEmpty && lpart.all (fun c => c != ' ') &&
    !dpart.isEmpty && dpart.all (fun c => c != '@' && c != ' ') &&
    dpart.contains '.' && dpart.head? != some '.' && dpart.getLast? != some '.'

/-- Decimal value of a digit list. -/
def digitsVal (cs : List Char) : Nat :=
  cs.foldl (fun n c => n * 10 + (c.toNat - '0'.toNat)) 0

/-- Modelled from the spec: the caller-side integer coercion of
`year_of_birth` (spec 4.1, "year_of_birth parsing"), i.e. Python `int` applied
to the submitted string: optional sign, decimal digits, surrounding
whitespace allowed; any parse failure yields `none` rather than an error. -/
def pyInt? (v : String) : Option Int :=
  match (stripStr v).data with
  | [] => none
  | '-' :: rest =>
    if !rest.isEmpty && rest.all Char.isDigit then some (-(digitsVal rest : Int)) else none
  | '+' :: rest =>
    if !rest.isEmpty && rest.all Char.isDigit then some ((digitsVal rest : Int)) else none
  | cs =>
    if cs.all Char.isDigit then some ((digitsVal cs : Int)) else none

/-- Modelled from the spec: the profile value stored for `year_of_birth`
after a successful registration (spec 4.1, "year_of_birth parsing"). -/
def storedYearOfBirth (s : Submission) : Option Int :=
  (getField s "year_of_birth").bind pyInt?

/-- Characters accepted in a username.  The spec (4.1 item 1) says
`[A-Za-z0-9]`, but the test suite, which is the authority here, accepts
`test_username` (`TestCreateAccountValidation.test_minimal_success`), so the
underscore is permitted as well: the accepted set is the word characters
`[A-Za-z0-9_]`. -/
def isUsernameChar (c : Char) : Bool :=
  c.isAlphanum || c == '_'

/-- Modelled from the spec: the username rule (spec 4.1 item 1; exercised by
`TestCreateAccountValidation.test_username`).  Missing or shorter than two
characters, then longer than 30, then characters outside the accepted set. -/
def checkUsername (s : Submission) : Option FieldError :=
  match getField s "username" with
  | none => some ⟨"username", userMinMsg, ""⟩
  | some u =>
    if u.length < 2 then some ⟨"username", userMinMsg, u⟩
    else if 30 < u.length then some ⟨"username", userMaxMsg, u⟩
    else if u.data.all isUsernameChar then none
    else some ⟨"username", userCharsMsg, u⟩

/-- Modelled from the spec: the email rule (spec 4.1 item 2; exercised by
`TestCreateAccountValidation.test_email`).  Missing, empty or malformed gives
the format message; only then is the raw length compared against 75. -/
def checkEmail (s : Submission) : Option FieldError :=
  match getField s "email" with
  | none => some ⟨"email", emailFmtMsg, ""⟩
  | some e =>
    if isValidEmail e then
      if 75 < e.length then some ⟨"email", emailLenMsg, e⟩ else none
    else some ⟨"email", emailFmtMsg, e⟩

/-- Modelled from the spec: the password rule (spec 4.1 item 3; exercised by
`TestCreateAccountValidation.test_password`).  Missing or shorter than two
characters, then exact string equality with the submitted username. -/
def checkPassword (s : Submission) : Option FieldError :=
  match getField s "password" with
  | none => some ⟨"password", passwordReqMsg, ""⟩
  | some p =>
    if p.length < 2 then some ⟨"password", passwordReqMsg, p⟩
    else if getField s "username" == some p then some ⟨"password", passwordMatchMsg, p⟩
    else none

/-- Modelled from the spec: the legal-name rule (spec 4.1 item 4; exercised by
`TestCreateAccountValidation.test_name`). -/
def checkName (s : Submission) : Option FieldError :=
  match getField s "name" with
  | none => some ⟨"name", nameMsg, ""⟩
  | some n => if n.length < 2 then some ⟨"name", nameMsg, n⟩ else none

/-- Modelled from the spec: the honor-code rule (spec 4.1 item 5; exercised by
`TestCreateAccountValidation.test_honor_code`).  Only checked when the
requirements mark it required; accepted values are exactly case-insensitive
"true". -/
def checkHonorCode (s : Submission) (r : Requirements) : Option FieldError :=
  if reqOf r "honor_code" == Req.required then
    match getField s "honor_code" with
    | none => some ⟨"honor_code", honorMsg, ""⟩
    | some v => if isTrueStr v then none else some ⟨"honor_code", honorMsg, v⟩
  else none

/-- Modelled from the spec: the terms-of-service rule (spec 4.1 item 6;
exercised by `TestCreateAccountValidation.test_terms_of_service`).  Always
required regardless of configuration. -/
def checkTermsOfService (s : Submission) : Option FieldError :=
  match getField s "terms_of_service" with
  | none => some ⟨"terms_of_service", tosMsg, ""⟩
  | some v => if isTrueStr v then none else some ⟨"terms_of_service", tosMsg, v⟩

/-- Modelled from the spec: the fixed table of known extra fields with their
minimum lengths and required-field messages (spec 4.1 item 7 and its table;
exercised by `TestCreateAccountValidation.test_extra_fields`). -/
def knownExtraTable : List (String × Nat × String) :=
  [("level_of_education", 1, "A level of education is required"),
   ("gender", 1, "Your gender is required"),
   ("year_of_birth", 2, "Your year of birth is required"),
   ("mailing_address", 2, "Your mailing address is required"),
   ("goals", 2, "A description of your goals is required"),
   ("city", 2, "A city is required"),
   ("country", 2, "A country is required")]

/-- Names of the known extra fields, in evaluation order. -/
def knownExtraNames : List String := knownExtraTable.map (fun e => e.1)

/-- The six always-present main fields (spec 3). -/
def mainFields : List String :=
  ["username", "email", "password", "name", "honor_code", "terms_of_service"]

/-- Modelled from the spec: the check of one known extra field (spec 4.1
item 7): when required, a missing value or a trimmed value shorter than the
minimum length fails with the message of the field. -/
def knownEntryCheck (s : Submission) (r : Requirements) (e : String × Nat × String) :
    Option FieldError :=
  if reqOf r e.1 == Req.required then
    match getField s e.1 with
    | none => some ⟨e.1, e.2.2, ""⟩
    | some v => if (stripStr v).length < e.2.1 then some ⟨e.1, e.2.2, v⟩ else none
  else none

/-- Modelled from the spec: the check of one custom microsite-declared field
(spec 4.1 item 7; exercised with `custom_field` and minimum length 2 by
`TestCreateAccountValidation.test_extra_fields`): a required configured field
that is neither a main field nor a known extra field fails with the generic
message when missing or shorter than two characters after trimming. -/
def customEntryCheck (s : Submission) (p : String × Req) : Option FieldError :=
  if p.2 == Req.required && !(mainFields.contains p.1) && !(knownExtraNames.contains p.1) then
    match getField s p.1 with
    | none => some ⟨p.1, missingFieldsMsg, ""⟩
    | some v => if (stripStr v).length < 2 then some ⟨p.1, missingFieldsMsg, v⟩ else none
  else none

/-- Modelled from the spec: the extra-field pass (spec 4.1 item 7): the known
extra fields in their fixed order, then the custom configured fields. -/
def checkExtras (s : Submission) (r : Requirements) : Option FieldError :=
  firstSome (knownExtraTable.map (knownEntryCheck s r) ++ r.map (customEntryCheck s))

/-- Modelled from the spec: the rules of one validation pass in the fixed
evaluation order username, email, password, name, honor_code,
terms_of_service, extra fields (spec 4.1). -/
def checksList (s : Submission) (r : Requirements) : List (Option FieldError) :=
  [checkUsername s, checkEmail s, checkPassword s, checkName s,
   checkHonorCode s r, checkTermsOfService s, checkExtras s r]

/-- Modelled from the spec: `validate(submission, requirements)` (spec 4.1),
the registration validator of `student.views.create_account`, which is not
among the source files.  A pure short-circuit pass returning the first
violated rule, or success. -/
def validate (s : Submission) (r : Requirements) : ValidationResult :=
  match firstSome (checksList s r) with
  | none => ValidationResult.success
  | some f => ValidationResult.failure f.field f.message f.value

/-- Observable outcome of one registration attempt: whether a user record is
visible afterwards and whether the external discussion-service provisioning
call was made. -/
structure RegOutcome where
  userVisible : Bool
  csCalled : Bool
deriving DecidableEq, Repr

/-- Modelled from the spec: the post-validation account-creation flow (spec 5
and 7; exercised by `TestCreateCommentsServiceUser`), not among the source
files.  After validation succeeds the local record is created and the
downstream registration step runs; only then is the external
discussion-service user provisioned.  A downstream throw aborts the attempt,
the record is rolled back (or never becomes visible), and the provisioning
call is never reached. -/
def registerFlow (s : Submission) (r : Requirements) (downstreamThrows : Bool) : RegOutcome :=
  match validate s r with
  | ValidationResult.failure _ _ _ => ⟨false, false⟩
  | ValidationResult.success => if downstreamThrows then ⟨false, false⟩ else ⟨true, true⟩

/-- Exceptions distinguished by the `learner_profile` view
(`lms/djangoapps/student_profile/views.py`, lines 48 to 53). -/
inductive ProfileExc
  | userNotAuthorized
  | userNotFound
  | objectDoesNotExist
deriving DecidableEq, Repr

/-- HTTP status dispatch of the `learner_profile` view
(`lms/djangoapps/student_profile/views.py`, lines 43 to 53): the context
build either succeeds (200) or raises one of the three handled
exceptions. -/
def learner_profile (isStaff : Bool) (outcome : Except ProfileExc Unit) : Nat :=
  match outcome with
  | Except.ok _ => 200
  | Except.error ProfileExc.userNotAuthorized => 403
  | Except.error ProfileExc.userNotFound => if isStaff then 403 else 404
  | Except.error ProfileExc.objectDoesNotExist => 404

/-- Theme logo path chosen by `get_footer_logo`
(`lms/djangoapps/branding/api.py`, lines 105 to 108). -/
def logo_file (isEdxDomain : Bool) : String :=
  if isEdxDomain then "images/edx-theme/edx-header-logo.png"
  else "images/default-theme/logo.png"

/-- Embedding of `get_footer_logo` (`lms/djangoapps/branding/api.py`, lines
104 to 113).  `staticUrl` stands for `staticfiles_storage.url`, which may
raise any exception (modelled as `Except` over an arbitrary error type); the
bare except clause falls back to concatenating the raw logo file path. -/
def get_footer_logo {ε : Type} (isEdxDomain : Bool)
    (staticUrl : String → Except ε String) (site_name : String) : String :=
  match staticUrl (logo_file isEdxDomain) with
  | Except.ok url => site_name ++ url
  | Except.error _ => site_name ++ logo_file isEdxDomain

/-- The minimal valid submission used throughout the validation tests
(`TestCreateAccountValidation.setUp`). -/
def minimalParams : Submission :=
  [("username", "test_username"), ("email", "test_email@example.com"),
   ("password", "test_password"), ("name", "Test Name"),
   ("honor_code", "true"), ("terms_of_service", "true")]

/-- The minimal submission with its username replaced by a one-character
non-alphanumeric one. -/
def bangParams : Submission := setField minimalParams "username" "!"

/-- The minimal submission with its username replaced by one containing a
space (`TestCreateAccountValidation.test_username`). -/
def invalidUserParams : Submission := setField minimalParams "username" "invalid username"

/-- The minimal submission with honor_code set to a mixed-case true value
(`TestCreateAccountValidation.test_honor_code`). -/
def tRUeParams : Submission := setField minimalParams "honor_code" "tRUe"

/-- Configuration marking honor_code required. -/
def honorRequired : Requirements := [("honor_code", Req.required)]

/-- Configuration marking honor_code optional. -/
def honorOptional : Requirements := [("honor_code", Req.optional)]

/-- The minimal submission without any honor_code field. -/
def noHonorParams : Submission :=
  [("username", "test_username"), ("email", "test_email@example.com"),
   ("password", "test_password"), ("name", "Test Name"),
   ("terms_of_service", "true")]

/-- The 76-character syntactically valid email from
`TestCreateAccountValidation.test_email`. -/
def longEmail : String :=
  "this_email_address_has_76_characters_in_it_so_it_is_unacceptable@example.com"

/-- The minimal submission with the 76-character email. -/
def longEmailParams : Submission := setField minimalParams "email" longEmail

/-- The submission of `TestCreateAccountValidation.test_password` whose
username and password coincide. -/
def matchParams : Submission :=
  [("username", "test_username_and_password"), ("email", "test_email@example.com"),
   ("password", "test_username_and_password"), ("name", "Test Name"),
   ("honor_code", "true"), ("terms_of_service", "true")]

example : isValidEmail "not_an_email_address" = false := by decide
example :
    isValidEmail "this_email_address_has_76_characters_in_it_so_it_is_unacceptable@example.com"
      = true := by decide

/-- The first-`some` of a list is `none` exactly when every entry is
`none`. -/
theorem firstSome_eq_none_iff {α : Type} (l : List (Option α)) :
    firstSome l = none ↔ ∀ o ∈ l, o = none := by
  induction l with
  | nil => simp [firstSome]
  | cons o rest ih =>
    cases o with
    | none => simpa [firstSome] using ih
    | some a => simp [firstSome]

/-- The first-`some` of a list is `some a` exactly when some position holds
`some a` and every earlier position holds `none`. -/
theorem firstSome_eq_some_iff {α : Type} (l : List (Option α)) (a : α) :
    firstSome l = some a ↔
      ∃ i, l.get? i = some (some a) ∧ ∀ j, j < i → l.get? j = some none := by
  induction l with
  | nil => simp [firstSome]
  | cons o rest ih =>
    cases o with
    | some b =>
      simp only [firstSome]
      constructor
      · intro h
        exact ⟨0, by simpa using h, by omega⟩
      · rintro ⟨i, hi, hj⟩
        cases i with
        | zero => simpa using hi
        | succ i0 =>
          have := hj 0 (by omega)
          simp at this
    | none =>
      rw [show firstSome (none :: rest) = firstSome rest from rfl, ih]
      constructor
      · rintro ⟨i, hi, hj⟩
        refine ⟨i + 1, by simpa using hi, ?_⟩
        intro j hj1
        cases j with
        | zero => simp
        | succ j0 => simpa using hj j0 (by omega)
      · rintro ⟨i, hi, hj⟩
        cases i with
        | zero => simp at hi
        | succ i0 =>
          refine ⟨i0, by simpa using hi, ?_⟩
          intro j hjlt
          simpa using hj (j + 1) (by omega)

/-- Appending lists of optional errors: no error exactly when neither part
has one. -/
theorem firstSome_append_eq_none {α : Type} (l1 l2 : List (Option α)) :
    firstSome (l1 ++ l2) = none ↔ firstSome l1 = none ∧ firstSome l2 = none := by
  simp only [firstSome_eq_none_iff, List.mem_append]
  constructor
  · intro h
    exact ⟨fun o ho => h o (Or.inl ho), fun o ho => h o (Or.inr ho)⟩
  · rintro ⟨h1, h2⟩ o ho
    cases ho with
    | inl h => exact h1 o h
    | inr h => exact h2 o h

/-- Validation succeeds exactly when no rule reports an error. -/
theorem validate_success_iff (s : Submission) (r : Requirements) :
    validate s r = ValidationResult.success ↔ firstSome (checksList s r) = none := by
  unfold validate
  cases h : firstSome (checksList s r) <;> simp

/-- Looking up the field just set returns the new value. -/
theorem getField_setField_self (s : Submission) (k v : String) :
    getField (setField s k v) k = some v := by
  simp [getField, setField, List.lookup]

/-- Looking up a different field ignores the field just set. -/
theorem getField_setField_ne (s : Submission) (k v k2 : String) (h : k2 ≠ k) :
    getField (setField s k v) k2 = getField s k2 := by
  have hb : (k2 == k) = false := beq_eq_false_iff_ne.2 h
  simp [getField, setField, List.lookup, hb]

/-- The username rule reads the submission only through `getField`. -/
theorem checkUsername_ext (s1 s2 : Submission) (h : ∀ k, getField s1 k = getField s2 k) :
    checkUsername s1 = checkUsername s2 := by
  simp [checkUsername, h]

/-- The email rule reads the submission only through `getField`. -/
theorem checkEmail_ext (s1 s2 : Submission) (h : ∀ k, getField s1 k = getField s2 k) :
    checkEmail s1 = checkEmail s2 := by
  simp [checkEmail, h]

/-- The password rule reads the submission only through `getField`. -/
theorem checkPassword_ext (s1 s2 : Submission) (h : ∀ k, getField s1 k = getField s2 k) :
    checkPassword s1 = checkPassword s2 := by
  simp [checkPassword, h]

/-- The name rule reads the submission only through `getField`. -/
theorem checkName_ext (s1 s2 : Submission) (h : ∀ k, getField s1 k = getField s2 k) :
    checkName s1 = checkName s2 := by
  simp [checkName, h]

/-- The honor-code rule reads the submission only through `getField`. -/
theorem checkHonorCode_ext (s1 s2 : Submission) (r : Requirements)
    (h : ∀ k, getField s1 k = getField s2 k) :
    checkHonorCode s1 r = checkHonorCode s2 r := by
  simp [checkHonorCode, h]

/-- The terms-of-service rule reads the submission only through
`getField`. -/
theorem checkTermsOfService_ext (s1 s2 : Submission)
    (h : ∀ k, getField s1 k = getField s2 k) :
    checkTermsOfService s1 = checkTermsOfService s2 := by
  simp [checkTermsOfService, h]

/-- The extra-field pass reads the submission only through `getField`. -/
theorem checkExtras_ext (s1 s2 : Submission) (r : Requirements)
    (h : ∀ k, getField s1 k = getField s2 k) :
    checkExtras s1 r = checkExtras s2 r := by
  have h1 : knownEntryCheck s1 r = knownEntryCheck s2 r :=
    funext fun e => by simp [knownEntryCheck, h]
  have h2 : customEntryCheck s1 = customEntryCheck s2 :=
    funext fun p => by simp [customEntryCheck, h]
  rw [checkExtras, checkExtras, h1, h2]

/-- The validator is a function of the field-value mapping alone: two
submissions with the same lookups validate identically, whatever the order
in which their fields were set. -/
theorem validate_ext (s1 s2 : Submission) (r : Requirements)
    (h : ∀ k, getField s1 k = getField s2 k) :
    validate s1 r = validate s2 r := by
  have hc : checksList s1 r = checksList s2 r := by
    rw [checksList, checksList, checkUsername_ext s1 s2 h, checkEmail_ext s1 s2 h,
        checkPassword_ext s1 s2 h, checkName_ext s1 s2 h, checkHonorCode_ext s1 s2 r h,
        checkTermsOfService_ext s1 s2 h, checkExtras_ext s1 s2 r h]
  unfold validate
  rw [hc]

/-- C1: for every submission and requirements configuration, `validate`
returns either success or exactly one field-message-value failure; the rules
are evaluated in the fixed order username, email, password, name, honor_code,
terms_of_service, extra fields, and the reported failure is the one of the
first violated rule — never more than one error per pass. -/
theorem validate_single_error_first_violated (s : Submission) (r : Requirements) :
    checksList s r = [checkUsername s, checkEmail s, checkPassword s, checkName s,
      checkHonorCode s r, checkTermsOfService s, checkExtras s r]
    ∧ ((validate s r = ValidationResult.success ∧ ∀ o ∈ checksList s r, o = none)
       ∨ (∃ f i, (checksList s r).get? i = some (some f)
            ∧ (∀ j, j < i → (checksList s r).get? j = some none)
            ∧ validate s r = ValidationResult.failure f.field f.message f.value)) := by
  refine ⟨rfl, ?_⟩
  cases h : firstSome (checksList s r) with
  | none =>
    left
    exact ⟨by simp [validate, h], (firstSome_eq_none_iff _).1 h⟩
  | some f =>
    right
    obtain ⟨i, hi, hj⟩ := (firstSome_eq_some_iff _ f).1 h
    exact ⟨f, i, hi, hj, by simp [validate, h]⟩

/-- C2 (counterexample): the claim fails on the code in two ways.  First,
`test_username` contains an underscore — a character outside `[A-Za-z0-9]` —
yet the minimal submission validates successfully
(`TestCreateAccountValidation.test_minimal_success`), so the accepted set is
the word characters, not `[A-Za-z0-9]`.  Second, the one-character username
`!` contains a character outside `[A-Za-z0-9]` but is reported with the
minimum-length message, not the character-set message. -/
theorem username_charset_claim_counterexample :
    ("test_username".data.all (fun c => c.isAlphanum) = false
      ∧ validate minimalParams [] = ValidationResult.success)
    ∧ ("!".data.all (fun c => c.isAlphanum) = false
      ∧ validate bangParams [] = ValidationResult.failure "username" userMinMsg "!"
      ∧ validate bangParams [] ≠ ValidationResult.failure "username" userCharsMsg "!") := by
  refine ⟨⟨by decide, by decide⟩, by decide, by decide, by decide⟩

/-- C2 (amended): for every submission whose username has length at least 2
and at most 30 and contains any character outside the word characters
`[A-Za-z0-9_]`, validation fails on field `username` with message "Username
should only consist of A-Z and 0-9, with no spaces." -/
theorem username_charset_amended (s : Submission) (r : Requirements) (u : String)
    (hu : getField s "username" = some u) (h2 : 2 ≤ u.length) (h30 : u.length ≤ 30)
    (hc : u.data.all isUsernameChar = false) :
    validate s r = ValidationResult.failure "username" userCharsMsg u := by
  have hcu : checkUsername s = some ⟨"username", userCharsMsg, u⟩ := by
    simp only [checkUsername, hu]
    rw [if_neg (by omega), if_neg (by omega), hc]
    simp
  simp [validate, checksList, firstSome, hcu]

/-- C2 (witness): the amended theorem applied to the submission whose
username contains a space. -/
theorem username_charset_amended_witness :
    validate invalidUserParams []
      = ValidationResult.failure "username" userCharsMsg "invalid username" :=
  username_charset_amended invalidUserParams [] "invalid username"
    (by decide) (by decide) (by decide) (by decide)

/-- C3: for every registration attempt that passes validation, if the
downstream registration step throws after the local record is created, no
user record remains visible and the external discussion-service provisioning
call is never made (spec 5; `TestCreateCommentsServiceUser.test_cs_user_not_created`). -/
theorem downstream_failure_leaves_no_user (s : Submission) (r : Requirements)
    (h : validate s r = ValidationResult.success) :
    (registerFlow s r true).userVisible = false
    ∧ (registerFlow s r true).csCalled = false := by
  simp [registerFlow, h]

/-- C3 (witness): the rollback contract at the concrete minimal submission. -/
theorem downstream_failure_leaves_no_user_witness :
    (registerFlow minimalParams [] true).userVisible = false
    ∧ (registerFlow minimalParams [] true).csCalled = false :=
  downstream_failure_leaves_no_user minimalParams [] (by decide)

/-- C4: the honor_code rule fires only when the configuration marks the field
required; when required, a missing value or any value not case-insensitively
equal to "true" fails with the honor-code message, "tRUe" succeeds, and
"false" is rejected; when marked optional, an absent honor_code validates
successfully. -/
theorem honor_code_conditional (s : Submission) (r : Requirements) :
    (reqOf r "honor_code" = Req.required → getField s "honor_code" = none →
       checkHonorCode s r = some ⟨"honor_code", honorMsg, ""⟩)
    ∧ (∀ v, reqOf r "honor_code" = Req.required → getField s "honor_code" = some v →
       isTrueStr v = false → checkHonorCode s r = some ⟨"honor_code", honorMsg, v⟩)
    ∧ (reqOf r "honor_code" = Req.optional → checkHonorCode s r = none)
    ∧ isTrueStr "tRUe" = true ∧ isTrueStr "false" = false
    ∧ validate tRUeParams honorRequired = ValidationResult.success
    ∧ validate noHonorParams honorOptional = ValidationResult.success := by
  refine ⟨?_, ?_, ?_, by decide, by decide, by decide, by decide⟩
  · intro h1 h2
    simp [checkHonorCode, h1, h2]
  · intro v h1 h2 h3
    simp [checkHonorCode, h1, h2, h3]
  · intro h1
    simp [checkHonorCode, h1]

/-- C4 (witness): the honor-code rule applied at concrete submissions — the
missing-value and "false" failures under a required configuration, and the
vacuous check under an optional one. -/
theorem honor_code_conditional_witness :
    checkHonorCode noHonorParams honorRequired = some ⟨"honor_code", honorMsg, ""⟩
    ∧ checkHonorCode (setField minimalParams "honor_code" "false") honorRequired
        = some ⟨"honor_code", honorMsg, "false"⟩
    ∧ checkHonorCode noHonorParams honorOptional = none
    ∧ validate tRUeParams honorRequired = ValidationResult.success :=
  ⟨(honor_code_conditional noHonorParams honorRequired).1 (by decide) (by decide),
   (honor_code_conditional (setField minimalParams "honor_code" "false")
      honorRequired).2.1 "false" (by decide) (by decide) (by decide),
   (honor_code_conditional noHonorParams honorOptional).2.2.1 (by decide),
   (honor_code_conditional noHonorParams honorOptional).2.2.2.2.2.1⟩

/-- C5: an email that passes the basic syntax check but whose raw string is
longer than 75 characters is rejected on field `email` with the
length-specific message (once the submission reaches the email rule, i.e. the
username rule passed); the length check runs only after the format check, so
a syntactically invalid email always gets the format message, whatever its
length. -/
theorem email_length_after_format (s : Submission) (r : Requirements) (e : String)
    (he : getField s "email" = some e) :
    (isValidEmail e = true → 75 < e.length →
       checkEmail s = some ⟨"email", emailLenMsg, e⟩
       ∧ (checkUsername s = none →
            validate s r = ValidationResult.failure "email" emailLenMsg e))
    ∧ (isValidEmail e = false → checkEmail s = some ⟨"email", emailFmtMsg, e⟩) := by
  constructor
  · intro hv hl
    have hce : checkEmail s = some ⟨"email", emailLenMsg, e⟩ := by
      simp only [checkEmail, he, hv, if_true]
      rw [if_pos hl]
    refine ⟨hce, ?_⟩
    intro hcu
    simp [validate, checksList, firstSome, hcu, hce]
  · intro hv
    simp [checkEmail, he, hv]

/-- C5 (witness): the 76-character valid email is rejected with the length
message, and a malformed email gets the format message even though the
format rule would also apply. -/
theorem email_length_after_format_witness :
    validate longEmailParams [] = ValidationResult.failure "email" emailLenMsg longEmail
    ∧ checkEmail (setField minimalParams "email" "not_an_email_address")
        = some ⟨"email", emailFmtMsg, "not_an_email_address"⟩ :=
  ⟨((email_length_after_format longEmailParams [] longEmail (by decide)).1
      (by decide) (by decide)).2 (by decide),
   (email_length_after_format (setField minimalParams "email" "not_an_email_address")
      [] "not_an_email_address" (by decide)).2 (by decide)⟩

/-- Setting an unrelated field leaves the username rule unchanged. -/
theorem checkUsername_setField (s : Submission) (k v : String) (h : "username" ≠ k) :
    checkUsername (setField s k v) = checkUsername s := by
  simp [checkUsername, getField_setField_ne s k v "username" h]

/-- Setting an unrelated field leaves the email rule unchanged. -/
theorem checkEmail_setField (s : Submission) (k v : String) (h : "email" ≠ k) :
    checkEmail (setField s k v) = checkEmail s := by
  simp [checkEmail, getField_setField_ne s k v "email" h]

/-- Setting a field other than username and password leaves the password rule
unchanged. -/
theorem checkPassword_setField (s : Submission) (k v : String)
    (h1 : "password" ≠ k) (h2 : "username" ≠ k) :
    checkPassword (setField s k v) = checkPassword s := by
  simp [checkPassword, getField_setField_ne s k v "password" h1,
    getField_setField_ne s k v "username" h2]

/-- Setting an unrelated field leaves the name rule unchanged. -/
theorem checkName_setField (s : Submission) (k v : String) (h : "name" ≠ k) :
    checkName (setField s k v) = checkName s := by
  simp [checkName, getField_setField_ne s k v "name" h]

/-- Setting an unrelated field leaves the honor-code rule unchanged. -/
theorem checkHonorCode_setField (s : Submission) (r : Requirements) (k v : String)
    (h : "honor_code" ≠ k) :
    checkHonorCode (setField s k v) r = checkHonorCode s r := by
  simp [checkHonorCode, getField_setField_ne s k v "honor_code" h]

/-- Setting an unrelated field leaves the terms-of-service rule unchanged. -/
theorem checkTermsOfService_setField (s : Submission) (k v : String)
    (h : "terms_of_service" ≠ k) :
    checkTermsOfService (setField s k v) = checkTermsOfService s := by
  simp [checkTermsOfService, getField_setField_ne s k v "terms_of_service" h]

/-- The year-of-birth row of the extra-field table never fires once the field
holds the value "not_an_integer": its trimmed length is well above the
minimum. -/
theorem knownEntryCheck_yob_set (s : Submission) (r : Requirements) :
    knownEntryCheck (setField s "year_of_birth" "not_an_integer") r
      ("year_of_birth", 2, "Your year of birth is required") = none := by
  have hlen : ¬ (stripStr "not_an_integer").length < 2 := by decide
  simp only [knownEntryCheck, getField_setField_self]
  cases hb : reqOf r "year_of_birth" == Req.required <;> simp [hlen]

/-- A known-extra-field row for a different field ignores the field just
set. -/
theorem knownEntryCheck_set_ne (s : Submission) (r : Requirements) (k v : String)
    (e : String × Nat × String) (h : e.1 ≠ k) :
    knownEntryCheck (setField s k v) r e = knownEntryCheck s r e := by
  simp only [knownEntryCheck]
  rw [getField_setField_ne s k v e.1 h]

/-- Custom-field rows ignore a year-of-birth update: a custom row never reads
a known extra field. -/
theorem customEntryCheck_set_yob (s : Submission) (p : String × Req) :
    customEntryCheck (setField s "year_of_birth" "not_an_integer") p
      = customEntryCheck s p := by
  by_cases h : p.1 = "year_of_birth"
  · have hmem : p.1 ∈ knownExtraNames := by rw [h]; decide
    simp [customEntryCheck, hmem]
  · simp only [customEntryCheck]
    rw [getField_setField_ne s _ _ p.1 h]

/-- The extra-field pass still reports nothing after year_of_birth is set to
"not_an_integer". -/
theorem checkExtras_set_yob (s : Submission) (r : Requirements)
    (h : checkExtras s r = none) :
    checkExtras (setField s "year_of_birth" "not_an_integer") r = none := by
  rw [checkExtras] at h ⊢
  rw [firstSome_append_eq_none] at h ⊢
  obtain ⟨hk, hc⟩ := h
  constructor
  · rw [firstSome_eq_none_iff] at hk ⊢
    intro o ho
    obtain ⟨e, he, rfl⟩ := List.mem_map.1 ho
    by_cases hyob : e.1 = "year_of_birth"
    · have he2 : e = ("year_of_birth", 2, "Your year of birth is required") := by
        fin_cases he <;> simp_all [knownExtraTable]
      rw [he2]
      exact knownEntryCheck_yob_set s r
    · rw [knownEntryCheck_set_ne s r _ _ e hyob]
      exact hk _ (List.mem_map.2 ⟨e, he, rfl⟩)
  · rw [firstSome_eq_none_iff] at hc ⊢
    intro o ho
    obtain ⟨p, hp, rfl⟩ := List.mem_map.1 ho
    rw [customEntryCheck_set_yob s p]
    exact hc _ (List.mem_map.2 ⟨p, hp, rfl⟩)

/-- C6: a year_of_birth value that fails integer parsing never causes a
validation failure — a submission that validates successfully still does so
with year_of_birth set to "not_an_integer" under every configuration — and
the stored year_of_birth is absent rather than an error
(`TestCreateAccount.test_profile_year_of_birth_non_integer`). -/
theorem year_of_birth_silent_coercion :
    (∀ (s : Submission) (r : Requirements), validate s r = ValidationResult.success →
        validate (setField s "year_of_birth" "not_an_integer") r
          = ValidationResult.success)
    ∧ pyInt? "not_an_integer" = none
    ∧ (∀ s : Submission,
        storedYearOfBirth (setField s "year_of_birth" "not_an_integer") = none) := by
  refine ⟨?_, by decide, ?_⟩
  · intro s r h
    rw [validate_success_iff] at h ⊢
    rw [firstSome_eq_none_iff] at h ⊢
    have h1 : checkUsername s = none := h _ (by simp [checksList])
    have h2 : checkEmail s = none := h _ (by simp [checksList])
    have h3 : checkPassword s = none := h _ (by simp [checksList])
    have h4 : checkName s = none := h _ (by simp [checksList])
    have h5 : checkHonorCode s r = none := h _ (by simp [checksList])
    have h6 : checkTermsOfService s = none := h _ (by simp [checksList])
    have h7 : checkExtras s r = none := h _ (by simp [checksList])
    intro o ho
    rw [checksList] at ho
    simp only [List.mem_cons, List.not_mem_nil, or_false] at ho
    rcases ho with rfl | rfl | rfl | rfl | rfl | rfl | rfl
    · rw [checkUsername_setField s _ _ (by decide)]; exact h1
    · rw [checkEmail_setField s _ _ (by decide)]; exact h2
    · rw [checkPassword_setField s _ _ (by decide) (by decide)]; exact h3
    · rw [checkName_setField s _ _ (by decide)]; exact h4
    · rw [checkHonorCode_setField s r _ _ (by decide)]; exact h5
    · rw [checkTermsOfService_setField s _ _ (by decide)]; exact h6
    · exact checkExtras_set_yob s r h7
  · intro s
    simp [storedYearOfBirth, getField_setField_self]
    decide

/-- C6 (witness): the silent-coercion contract at the concrete minimal
submission. -/
theorem year_of_birth_silent_coercion_witness :
    validate (setField minimalParams "year_of_birth" "not_an_integer") []
      = ValidationResult.success :=
  year_of_birth_silent_coercion.1 minimalParams [] (by decide)

/-- C7: each known extra field configured as required rejects a missing value
— and a trimmed value shorter than its minimum length — with its
field-specific message from the fixed table; a custom required field that is
neither a main field nor a known extra field rejects a missing or empty value
with the generic message (`TestCreateAccountValidation.test_extra_fields`). -/
theorem extra_required_field_messages :
    knownExtraTable =
      [("level_of_education", 1, "A level of education is required"),
       ("gender", 1, "Your gender is required"),
       ("year_of_birth", 2, "Your year of birth is required"),
       ("mailing_address", 2, "Your mailing address is required"),
       ("goals", 2, "A description of your goals is required"),
       ("city", 2, "A city is required"),
       ("country", 2, "A country is required")]
    ∧ (∀ e, e ∈ knownExtraTable → ∀ (s : Submission) (r : Requirements),
        reqOf r e.1 = Req.required →
          (getField s e.1 = none → knownEntryCheck s r e = some ⟨e.1, e.2.2, ""⟩)
          ∧ (∀ v, getField s e.1 = some v → (stripStr v).length < e.2.1 →
              knownEntryCheck s r e = some ⟨e.1, e.2.2, v⟩))
    ∧ (∀ (s : Submission) (n : String),
        n ∉ mainFields → n ∉ knownExtraNames →
          (getField s n = none →
            customEntryCheck s (n, Req.required) = some ⟨n, missingFieldsMsg, ""⟩)
          ∧ (getField s n = some "" →
            customEntryCheck s (n, Req.required) = some ⟨n, missingFieldsMsg, ""⟩)) := by
  refine ⟨rfl, ?_, ?_⟩
  · intro e _ s r hreq
    constructor
    · intro hg
      simp [knownEntryCheck, hreq, hg]
    · intro v hg hl
      simp only [knownEntryCheck, hreq, hg]
      simp [if_pos hl]
  · intro s n hm hk
    constructor
    · intro hg
      simp [customEntryCheck, hm, hk, hg]
    · intro hg
      have hl : (stripStr "").length < 2 := by decide
      simp [customEntryCheck, hm, hk, hg, hl]

/-- C7 (witness): the rule applied at concrete inputs — a missing required
city, a too-short required city, and a missing required custom field. -/
theorem extra_required_field_messages_witness :
    knownEntryCheck [] [("city", Req.required)] ("city", 2, "A city is required")
      = some ⟨"city", "A city is required", ""⟩
    ∧ knownEntryCheck [("city", "a")] [("city", Req.required)]
        ("city", 2, "A city is required")
      = some ⟨"city", "A city is required", "a"⟩
    ∧ customEntryCheck [] ("custom_field", Req.required)
      = some ⟨"custom_field", missingFieldsMsg, ""⟩
    ∧ customEntryCheck [("custom_field", "")] ("custom_field", Req.required)
      = some ⟨"custom_field", missingFieldsMsg, ""⟩ :=
  ⟨((extra_required_field_messages.2.1 ("city", 2, "A city is required") (by decide)
      [] [("city", Req.required)] (by decide)).1 (by decide)),
   ((extra_required_field_messages.2.1 ("city", 2, "A city is required") (by decide)
      [("city", "a")] [("city", Req.required)] (by decide)).2 "a" (by decide) (by decide)),
   ((extra_required_field_messages.2.2 [] "custom_field" (by decide) (by decide)).1
      (by decide)),
   ((extra_required_field_messages.2.2 [("custom_field", "")] "custom_field" (by decide)
      (by decide)).2 (by decide))⟩

/-- C8: when the submitted password string exactly equals the submitted
username string, and the username, email and password minimum-length checks
otherwise pass, validation fails on field `password` with the match message;
the result depends only on the field-value mapping, not on the order in which
the two values were set. -/
theorem password_equals_username (s : Submission) (r : Requirements) (u : String)
    (hu : getField s "username" = some u) (hp : getField s "password" = some u)
    (hlen : 2 ≤ u.length)
    (hcu : checkUsername s = none) (hce : checkEmail s = none) :
    validate s r = ValidationResult.failure "password" passwordMatchMsg u
    ∧ ∀ s2 : Submission, (∀ k, getField s2 k = getField s k) →
        validate s2 r = validate s r := by
  have hcp : checkPassword s = some ⟨"password", passwordMatchMsg, u⟩ := by
    simp only [checkPassword, hp, hu]
    rw [if_neg (by omega)]
    simp
  exact ⟨by simp [validate, checksList, firstSome, hcu, hce, hcp],
    fun s2 h2 => validate_ext s2 s r h2⟩

/-- C8 (witness): the match failure at the concrete submission of the test
suite. -/
theorem password_equals_username_witness :
    validate matchParams []
      = ValidationResult.failure "password" passwordMatchMsg
          "test_username_and_password" :=
  (password_equals_username matchParams [] "test_username_and_password"
    (by decide) (by decide) (by decide) (by decide) (by decide)).1

/-- C1 (witness): the single-error contract instantiated at the minimal
submission, where no rule is violated. -/
theorem validate_single_error_first_violated_witness :
    validate minimalParams [] = ValidationResult.success := by
  rcases (validate_single_error_first_violated minimalParams []).2 with h | ⟨f, i, hi, hj, hf⟩
  · exact h.1
  · rw [(by decide : validate minimalParams [] = ValidationResult.success)] at hf
    simp at hf

/-- C9: when the learner-profile context build raises UserNotFound, the view
answers 404 for a non-staff requester and 403 for a staff requester; a
UserNotAuthorized error always yields 403
(`lms/djangoapps/student_profile/views.py`, lines 48 to 51). -/
theorem learner_profile_statuses :
    learner_profile false (Except.error ProfileExc.userNotFound) = 404
    ∧ learner_profile true (Except.error ProfileExc.userNotFound) = 403
    ∧ learner_profile false (Except.error ProfileExc.userNotAuthorized) = 403
    ∧ learner_profile true (Except.error ProfileExc.userNotAuthorized) = 403 := by
  decide

/-- C10: `get_footer_logo` is total — whatever the static-URL resolver does,
it returns the site name concatenated with a logo location and never
propagates an exception; when the resolver fails it falls back to the raw
logo file path, and when it succeeds it uses the resolved URL
(`lms/djangoapps/branding/api.py`, lines 104 to 113). -/
theorem get_footer_logo_total {ε : Type} (isEdxDomain : Bool)
    (staticUrl : String → Except ε String) (site_name : String) :
    (∃ suffix, get_footer_logo isEdxDomain staticUrl site_name = site_name ++ suffix)
    ∧ (∀ er, staticUrl (logo_file isEdxDomain) = Except.error er →
        get_footer_logo isEdxDomain staticUrl site_name
          = site_name ++ logo_file isEdxDomain)
    ∧ (∀ u, staticUrl (logo_file isEdxDomain) = Except.ok u →
        get_footer_logo isEdxDomain staticUrl site_name = site_name ++ u) := by
  cases h : staticUrl (logo_file isEdxDomain) with
  | ok u =>
    refine ⟨⟨u, by simp [get_footer_logo, h]⟩, ?_, ?_⟩
    · intro er her
      cases her
    · intro u2 hu2
      cases hu2
      simp [get_footer_logo, h]
  | error er =>
    refine ⟨⟨logo_file isEdxDomain, by simp [get_footer_logo, h]⟩, ?_, ?_⟩
    · intro er2 _
      simp [get_footer_logo, h]
    · intro u hu
      cases hu

/-- C10 (witness): the fallback at a concrete failing resolver and the
resolved URL at a concrete succeeding one. -/
theorem get_footer_logo_total_witness :
    get_footer_logo false (fun _ => (Except.error () : Except Unit String)) "example.com"
      = "example.com" ++ logo_file false
    ∧ get_footer_logo false (fun _ => (Except.ok "/static/logo.png" : Except Unit String))
        "example.com"
      = "example.com" ++ "/static/logo.png" :=
  ⟨(get_footer_logo_total false (fun _ => (Except.error () : Except Unit String))
      "example.com").2.1 () rfl,
   (get_footer_logo_total false (fun _ => (Except.ok "/static/logo.png" : Except Unit String))
      "example.com").2.2 "/static/logo.png" rfl⟩
